import Mathlib

/-!
Shallow embedding of `src/event_source.rs` from the reqwest-eventsource crate:
the `EventSource` reconnecting driver, its `poll_next` state machine, the
`check_response` validator, `ready_state`, `close`, and the shared failure
handler `handle_error`.

External collaborators (the HTTP transport, the event-stream decoder, the timer
and the MIME parser) are abstracted: the outcome each pinned waitable would
yield when polled during one call is supplied by an `Env` record, and the MIME
parser is a function parameter. Machine futures are represented by the data the
source stores in them (the cloned request for a fetch, the byte body for a
stream, the armed duration for a delay).
-/

/-- Retry-delay duration (`std::time::Duration`), abstracted to a natural number. -/
abbrev Duration := Nat

/-- Transport-level failure (`reqwest::Error`), abstracted to its message. -/
abbrev TransportError := String

/-- Decoder failure from the event-stream decoder (`EventStreamError`), abstracted. -/
abbrev DecodeError := String

/-- Header value (`reqwest::header::HeaderValue`), abstracted to a string. -/
abbrev HeaderValue := String

/-- A decoded server-sent-event record (`eventsource_stream::Event`): optional id,
optional type, data, optional retry hint (empty string standing for absent id/type). -/
structure MessageEvent where
  id : String
  event : String
  data : String
  retry : Option Duration
deriving DecidableEq

/-- Modelled from the spec: the streamed error taxonomy of `error.rs`, which is not
under `src/` — Transport, InvalidStatusCode(code), InvalidContentType(header-value),
StreamEnded, Decode(underlying). -/
inductive Error where
  | Transport (e : TransportError)
  | InvalidStatusCode (code : Nat)
  | InvalidContentType (value : HeaderValue)
  | StreamEnded
  | Decode (e : DecodeError)
deriving DecidableEq

/-- Modelled from the spec: the construction-time error of `error.rs`, which is not
under `src/` — returned synchronously when the request template cannot be duplicated. -/
inductive CannotCloneRequestError where
  | mk
deriving DecidableEq

/-- `reqwest::RequestBuilder` (external collaborator): a request template together
with whether `try_clone` succeeds on it. -/
structure RequestBuilder where
  url : String
  cloneable : Bool
deriving DecidableEq

/-- `RequestBuilder::try_clone` (external): duplicates the template when possible. -/
def RequestBuilder.try_clone (b : RequestBuilder) : Option RequestBuilder :=
  if b.cloneable then some b else none

/-- `reqwest::Response` (external): status code, the content-type header (the only
header the source reads), and the byte body. -/
structure Response where
  status : Nat
  contentType : Option HeaderValue
  body : String
deriving DecidableEq

/-- A pending boxed response future; it remembers the cloned request it was built
from by `builder.send()`. -/
structure ResponseFuture where
  request : RequestBuilder
deriving DecidableEq

/-- `RequestBuilder::send` (external): starts the request, giving a pending future. -/
def RequestBuilder.send (b : RequestBuilder) : ResponseFuture := { request := b }

/-- An open boxed event stream (`res.bytes_stream().eventsource()`); it remembers
its byte source. -/
structure EventStream where
  bytes : String
deriving DecidableEq

/-- A parsed MIME type (`mime::Mime`, external): top-level type, subtype, parameters. -/
structure Mime where
  type_ : String
  subtype : String
  params : List (String × String)
deriving DecidableEq

/-- Composite of `HeaderValue::to_str` and `str::parse::<mime::Mime>` (both external
collaborators): `none` models failure of either step. Kept abstract as a parameter. -/
abbrev MimeParser := HeaderValue → Option Mime

/-- `RetryPolicy::retry` as a function (the trait object `BoxedRetry`; concrete
policies live in `retry.rs`, not under `src/`): from the error and the previous
bookkeeping tuple, an optional delay. -/
abbrev BoxedRetry := Error → Option (Nat × Duration) → Option Duration

/-- The `ReadyState` enum of `event_source.rs`. -/
inductive ReadyState where
  | Connecting
  | Open
  | Closed
deriving DecidableEq

/-- The `Event` item enum of `event_source.rs`: the Open marker or a decoded message. -/
inductive Event where
  | Open
  | Message (event : MessageEvent)
deriving DecidableEq

/-- The `EventSource` struct of `event_source.rs`: request template, the three
mutually exclusive waitable slots, the closed flag, the boxed retry policy and the
retry bookkeeping. -/
structure EventSource where
  builder : RequestBuilder
  next_response : Option ResponseFuture
  cur_stream : Option EventStream
  delay : Option Duration
  is_closed : Bool
  retry_policy : BoxedRetry
  last_retry : Option (Nat × Duration)

/-- `EventSource::new`: clone the template and arm the initial fetch, or fail with
`CannotCloneRequestError`. `DEFAULT_RETRY` lives in `retry.rs`, which is not under
`src/`, so the policy installed at construction is a parameter of the model (the
spec: a default policy ships but is replaceable by the caller at construction). -/
def EventSource.new (retry_policy : BoxedRetry) (builder : RequestBuilder) :
    Except CannotCloneRequestError EventSource :=
  match builder.try_clone with
  | none => Except.error CannotCloneRequestError.mk
  | some b =>
      Except.ok
        { builder := builder
          next_response := some b.send
          cur_stream := none
          delay := none
          is_closed := false
          retry_policy := retry_policy
          last_retry := none }

/-- `EventSource::close`: set the closed flag. -/
def EventSource.close (s : EventSource) : EventSource :=
  { s with is_closed := true }

/-- `EventSource::ready_state`: Closed if the flag is set, else Connecting if a
delay or fetch is outstanding, else Open. -/
def EventSource.ready_state (s : EventSource) : ReadyState :=
  if s.is_closed then ReadyState.Closed
  else if s.delay.isSome || s.next_response.isSome then ReadyState.Connecting
  else ReadyState.Open

/-- `EventSourceProjection::clear_fetch`: take both the response future and the
current stream. -/
def EventSource.clear_fetch (s : EventSource) : EventSource :=
  { s with next_response := none, cur_stream := none }

/-- `EventSourceProjection::retry_fetch`: take the stream and arm a fresh fetch from
a clone of the template. The source unwraps `try_clone`; `none` models that panic. -/
def EventSource.retry_fetch (s : EventSource) : Option EventSource :=
  (s.builder.try_clone).map fun b =>
    { s with cur_stream := none, next_response := some b.send }

/-- `EventSourceProjection::handle_error`: clear the fetch/stream slots, ask the
retry policy; on a granted delay update the bookkeeping tuple and arm the timer,
otherwise set the closed flag. -/
def EventSource.handle_error (s : EventSource) (error : Error) : EventSource :=
  let s := s.clear_fetch
  match s.retry_policy error s.last_retry with
  | some retry_delay =>
      let retry_num := (s.last_retry.map Prod.fst).getD 1
      { s with last_retry := some (retry_num, retry_delay), delay := some retry_delay }
  | none => { s with is_closed := true }

/-- `check_response`: reject any status other than 200 with `InvalidStatusCode`;
reject an absent content-type header with `InvalidContentType("")`; reject an
unparsable or non-`text/event-stream` content-type with `InvalidContentType`
carrying the raw header value; otherwise accept. -/
def check_response (parse : MimeParser) (response : Response) : Except Error Unit :=
  if response.status ≠ 200 then
    Except.error (Error.InvalidStatusCode response.status)
  else
    match response.contentType with
    | none => Except.error (Error.InvalidContentType "")
    | some content_type =>
      match parse content_type with
      | none => Except.error (Error.InvalidContentType content_type)
      | some mime_type =>
        if mime_type.type_ = "text" ∧ mime_type.subtype = "event-stream" then
          Except.ok ()
        else
          Except.error (Error.InvalidContentType content_type)

/-- The outcome of polling one waitable during one `poll_next` call. -/
inductive Poll (α : Type) where
  | ready (a : α)
  | pending
deriving DecidableEq

/-- The environment of one `poll_next` call: what each waitable would yield when
polled during this call — whether the armed delay has elapsed, what a polled
response future yields, and what a polled event stream yields (`ready none` is
graceful exhaustion). -/
structure Env where
  delayElapsed : Bool
  responseResult : Poll (Except TransportError Response)
  streamResult : Poll (Option (Except DecodeError MessageEvent))

/-- The produced item of one `poll_next` call mirroring
`Poll<Option<Result<Event, Error>>>`: `ready none` is end-of-sequence. -/
abbrev PollItem := Poll (Option (Except Error Event))

/-- The second half of `Stream::poll_next` for `EventSource`: the response-future
block and the stream block (reached with the delay slot already handled). Stream
errors surface as `Error.Decode` (modelled from the spec: the
`From<EventStreamError>` conversion lives in `error.rs`, not under `src/`).
`none` models the `unwrap` panic on an impossible all-empty state. -/
def poll_fetch_or_stream (parse : MimeParser) (s : EventSource) (env : Env) :
    Option (PollItem × EventSource) :=
  match s.next_response with
  | some _ =>
    match env.responseResult with
    | Poll.ready (Except.ok res) =>
        match check_response parse res with
        | Except.error err =>
            some (Poll.ready (some (Except.error err)),
              { s.clear_fetch with is_closed := true })
        | Except.ok _ =>
            some (Poll.ready (some (Except.ok Event.Open)),
              { s.clear_fetch with
                  last_retry := none
                  cur_stream := some { bytes := res.body } })
    | Poll.ready (Except.error e) =>
        let err := Error.Transport e
        some (Poll.ready (some (Except.error err)), s.handle_error err)
    | Poll.pending => some (Poll.pending, s)
  | none =>
    match s.cur_stream with
    | none => none
    | some _ =>
      match env.streamResult with
      | Poll.ready (some (Except.error e)) =>
          let err := Error.Decode e
          some (Poll.ready (some (Except.error err)), s.handle_error err)
      | Poll.ready (some (Except.ok ev)) =>
          some (Poll.ready (some (Except.ok (Event.Message ev))), s)
      | Poll.ready none =>
          let err := Error.StreamEnded
          some (Poll.ready (some (Except.error err)), s.handle_error err)
      | Poll.pending => some (Poll.pending, s)

/-- `Stream::poll_next` for `EventSource`: end-of-sequence when closed; otherwise
handle an armed delay (on elapse clear the timer slot, re-arm the fetch and keep
going within the same call), then the fetch/stream blocks. The result pairs the
produced `Poll` item with the successor state; `none` models a panic. -/
def poll_next (parse : MimeParser) (s : EventSource) (env : Env) :
    Option (PollItem × EventSource) :=
  if s.is_closed then some (Poll.ready none, s)
  else
    match s.delay with
    | some _ =>
        if env.delayElapsed then
          match EventSource.retry_fetch { s with delay := none } with
          | none => none
          | some s2 => poll_fetch_or_stream parse s2 env
        else some (Poll.pending, s)
    | none => poll_fetch_or_stream parse s env

/-- Number of populated waitable slots: armed delay, pending fetch, open stream. -/
def slotCount (s : EventSource) : Nat :=
  (if s.delay.isSome then 1 else 0) +
    (if s.next_response.isSome then 1 else 0) +
    (if s.cur_stream.isSome then 1 else 0)

/-! ### Concrete fixtures used by witnesses and counterexamples -/

/-- A cloneable test request template. -/
def testBuilder : RequestBuilder := { url := "http://example/events", cloneable := true }

/-- A retry policy granting a 5-unit delay for every error. -/
def alwaysRetry : BoxedRetry := fun _ _ => some 5

/-- MIME parser fixture understanding two concrete header values. -/
def testParse : MimeParser := fun ct =>
  if ct = "text/event-stream" then
    some { type_ := "text", subtype := "event-stream", params := [] }
  else if ct = "application/json" then
    some { type_ := "application", subtype := "json", params := [] }
  else none

/-- A freshly constructed source (the state `EventSource.new alwaysRetry testBuilder`
produces). -/
def testSource : EventSource :=
  { builder := testBuilder
    next_response := some testBuilder.send
    cur_stream := none
    delay := none
    is_closed := false
    retry_policy := alwaysRetry
    last_retry := none }

/-- A source with an open event stream and no pending fetch. -/
def streamingSource : EventSource :=
  { testSource with next_response := none, cur_stream := some { bytes := "B" } }

/-- A 201 response carrying a valid event-stream content-type. -/
def res201 : Response := { status := 201, contentType := some "text/event-stream", body := "" }

/-- A valid 200 event-stream response. -/
def resOk : Response := { status := 200, contentType := some "text/event-stream", body := "B" }

/-- Environment in which the pending fetch resolves to `res201`. -/
def env201 : Env :=
  { delayElapsed := false
    responseResult := Poll.ready (Except.ok res201)
    streamResult := Poll.pending }

/-- Environment in which the pending fetch resolves to `resOk`. -/
def envOk : Env :=
  { delayElapsed := false
    responseResult := Poll.ready (Except.ok resOk)
    streamResult := Poll.pending }

/-- Environment in which the pending fetch fails with a transport error. -/
def envErr : Env :=
  { delayElapsed := false
    responseResult := Poll.ready (Except.error "boom")
    streamResult := Poll.pending }

/-- Environment in which nothing is ready. -/
def envPending : Env :=
  { delayElapsed := false, responseResult := Poll.pending, streamResult := Poll.pending }

/-- Environment in which the open stream reports graceful exhaustion. -/
def envEnd : Env :=
  { delayElapsed := false, responseResult := Poll.pending, streamResult := Poll.ready none }

/-! ### Helper lemmas -/

theorem check_response_ok_iff (parse : MimeParser) (res : Response) :
    check_response parse res = Except.ok () ↔
      res.status = 200 ∧ ∃ ct m, res.contentType = some ct ∧ parse ct = some m ∧
        m.type_ = "text" ∧ m.subtype = "event-stream" := by
  unfold check_response
  by_cases hst : res.status = 200
  · cases hct : res.contentType with
    | none => simp [hst]
    | some ct =>
        cases hp : parse ct with
        | none => simp [hst, hp]
        | some m =>
            by_cases hm : m.type_ = "text" ∧ m.subtype = "event-stream"
            · simp [hst, hp, hm.1, hm.2]
            · have hne : ¬res.status ≠ 200 := not_not_intro hst
              constructor
              · intro hcontra
                rw [if_neg hne] at hcontra
                simp [hp, if_neg hm] at hcontra
              · rintro ⟨-, ct2, m2, hcteq, hp2, h1, h2⟩
                exfalso
                rw [Option.some_inj] at hcteq
                subst hcteq
                rw [hp, Option.some_inj] at hp2
                subst hp2
                exact hm ⟨h1, h2⟩
  · simp [hst]

theorem check_response_params_irrelevant (parse parse2 : MimeParser) (res : Response)
    (h : ∀ ct, (parse ct).map (fun m => (m.type_, m.subtype))
          = (parse2 ct).map (fun m => (m.type_, m.subtype))) :
    check_response parse res = check_response parse2 res := by
  unfold check_response
  by_cases hst : res.status = 200
  · cases hct : res.contentType with
    | none => rfl
    | some ct =>
        have hc := h ct
        cases hp : parse ct with
        | none =>
            cases hp2 : parse2 ct with
            | none => simp [hp, hp2]
            | some m2 => rw [hp, hp2] at hc; simp at hc
        | some m =>
            cases hp2 : parse2 ct with
            | none => rw [hp, hp2] at hc; simp at hc
            | some m2 =>
                rw [hp, hp2] at hc
                simp at hc
                simp [hp, hp2, hc.1, hc.2]
  · simp [hst]

/-! ### Claim theorems -/

/-- C6: `check_response` is a pure function that accepts a response iff its status
is exactly 200 and its content-type header is present, parsable, and of MIME type
text with subtype event-stream (parameters ignored); any other status yields
`InvalidStatusCode` regardless of content-type; an absent content-type yields
`InvalidContentType` (with the empty value), and an unparsable or wrong-typed one
yields `InvalidContentType` preserving the raw header value. It returns a value and
mutates nothing. -/
theorem check_response_spec (parse : MimeParser) (res : Response) :
    (check_response parse res = Except.ok () ↔
      res.status = 200 ∧ ∃ ct m, res.contentType = some ct ∧ parse ct = some m ∧
        m.type_ = "text" ∧ m.subtype = "event-stream") ∧
    (res.status ≠ 200 →
      check_response parse res = Except.error (Error.InvalidStatusCode res.status)) ∧
    (res.status = 200 → res.contentType = none →
      check_response parse res = Except.error (Error.InvalidContentType "")) ∧
    (∀ ct, res.status = 200 → res.contentType = some ct → parse ct = none →
      check_response parse res = Except.error (Error.InvalidContentType ct)) ∧
    (∀ ct m, res.status = 200 → res.contentType = some ct → parse ct = some m →
      ¬(m.type_ = "text" ∧ m.subtype = "event-stream") →
      check_response parse res = Except.error (Error.InvalidContentType ct)) ∧
    (∀ parse2 : MimeParser,
      (∀ ct, (parse ct).map (fun m => (m.type_, m.subtype))
            = (parse2 ct).map (fun m => (m.type_, m.subtype))) →
      check_response parse res = check_response parse2 res) := by
  refine ⟨check_response_ok_iff parse res, ?_, ?_, ?_, ?_,
    fun parse2 h => check_response_params_irrelevant parse parse2 res h⟩
  · intro hst
    unfold check_response
    simp [hst]
  · intro hst hct
    unfold check_response
    simp [hst, hct]
  · intro ct hst hct hp
    unfold check_response
    simp [hst, hct, hp]
  · intro ct m hst hct hp hm
    unfold check_response
    simp [hst, hct, hp, hm]

/-- C6 witness. -/
theorem check_response_spec_witness :
    check_response testParse res201 = Except.error (Error.InvalidStatusCode 201) :=
  (check_response_spec testParse res201).2.1 (by decide)

/-- C7: `ready_state` is a pure observer of the driver state: Closed iff the closed
flag is set; for a non-closed driver, Connecting iff a fetch is outstanding or a
retry timer is armed, and Open iff neither; exactly one of the three values holds
at any observation; and the state produced by the constructor (which arms the
initial fetch) reads Connecting and keeps reading Connecting while the initial
fetch polls pending. -/
theorem ready_state_spec :
    (∀ s : EventSource, s.ready_state = ReadyState.Closed ↔ s.is_closed = true) ∧
    (∀ s : EventSource, s.is_closed = false →
      (s.ready_state = ReadyState.Connecting ↔
        (s.delay.isSome = true ∨ s.next_response.isSome = true))) ∧
    (∀ s : EventSource, s.is_closed = false →
      (s.ready_state = ReadyState.Open ↔ (s.delay = none ∧ s.next_response = none))) ∧
    (∀ s : EventSource,
      (s.ready_state = ReadyState.Closed ∧ s.ready_state ≠ ReadyState.Connecting ∧
        s.ready_state ≠ ReadyState.Open) ∨
      (s.ready_state ≠ ReadyState.Closed ∧ s.ready_state = ReadyState.Connecting ∧
        s.ready_state ≠ ReadyState.Open) ∨
      (s.ready_state ≠ ReadyState.Closed ∧ s.ready_state ≠ ReadyState.Connecting ∧
        s.ready_state = ReadyState.Open)) ∧
    (∀ policy b s, EventSource.new policy b = Except.ok s →
      s.ready_state = ReadyState.Connecting) ∧
    (∀ parse policy b s env, EventSource.new policy b = Except.ok s →
      env.responseResult = Poll.pending →
      poll_next parse s env = some (Poll.pending, s)) := by
  refine ⟨?_, ?_, ?_, ?_, ?_, ?_⟩
  · intro s
    unfold EventSource.ready_state
    cases hc : s.is_closed <;> simp
    by_cases h2 : s.delay.isSome = true ∨ s.next_response.isSome = true <;> simp [h2]
  · intro s hc
    unfold EventSource.ready_state
    rw [hc]
    cases hd : s.delay.isSome <;> cases hn : s.next_response.isSome <;> simp
  · intro s hc
    unfold EventSource.ready_state
    rw [hc]
    cases hd : s.delay <;> cases hn : s.next_response <;>
      simp [Option.isSome]
  · intro s
    cases h : s.ready_state <;> simp
  · intro policy b s h
    unfold EventSource.new at h
    cases htc : b.try_clone <;> rw [htc] at h
    · exact absurd h (by simp)
    · rw [Except.ok.injEq] at h
      subst h
      rfl
  · intro parse policy b s env h hpend
    unfold EventSource.new at h
    cases htc : b.try_clone <;> rw [htc] at h
    · exact absurd h (by simp)
    · rw [Except.ok.injEq] at h
      subst h
      simp [poll_next, poll_fetch_or_stream, hpend]

/-- C7 witness. -/
theorem ready_state_spec_witness : testSource.ready_state = ReadyState.Connecting :=
  ready_state_spec.2.2.2.2.1 alwaysRetry testBuilder testSource rfl

/-- C9: `close` is synchronous and idempotent: after any number of calls,
`ready_state` reads Closed, and every subsequent poll immediately returns
end-of-sequence leaving the state untouched, whatever work was outstanding. -/
theorem close_spec :
    (∀ s : EventSource, s.close.ready_state = ReadyState.Closed) ∧
    (∀ s : EventSource, s.close.close = s.close) ∧
    (∀ (parse : MimeParser) (env : Env) (s : EventSource),
      poll_next parse s.close env = some (Poll.ready none, s.close)) := by
  refine ⟨?_, fun s => rfl, ?_⟩
  · intro s
    simp [EventSource.close, EventSource.ready_state]
  · intro parse env s
    simp [poll_next, EventSource.close]

/-- C10: `close` mutates only the closed flag — the pending response future, open
event stream, armed retry timer, retry bookkeeping, request template and policy
are all left unchanged — and every poll made after `close` returns the state
unchanged as well, so the in-flight slots survive until the value is dropped. -/
theorem close_frame :
    (∀ s : EventSource,
      s.close.next_response = s.next_response ∧ s.close.cur_stream = s.cur_stream ∧
      s.close.delay = s.delay ∧ s.close.last_retry = s.last_retry ∧
      s.close.builder = s.builder ∧ s.close.retry_policy = s.retry_policy ∧
      s.close.is_closed = true) ∧
    (∀ (parse : MimeParser) (env : Env) (s : EventSource),
      (poll_next parse s.close env).map Prod.snd = some s.close) := by
  refine ⟨fun s => ⟨rfl, rfl, rfl, rfl, rfl, rfl, rfl⟩, ?_⟩
  intro parse env s
  simp [poll_next, EventSource.close]

theorem try_clone_some (b b2 : RequestBuilder) (h : b.try_clone = some b2) : b2 = b := by
  unfold RequestBuilder.try_clone at h
  cases hc : b.cloneable <;> rw [hc] at h <;> simp at h
  exact h.symm

theorem retry_fetch_some (s s2 : EventSource) (h : s.retry_fetch = some s2) :
    s2 = { s with cur_stream := none, next_response := some s.builder.send } := by
  unfold EventSource.retry_fetch at h
  cases htc : s.builder.try_clone with
  | none => rw [htc] at h; simp at h
  | some b =>
      rw [htc] at h
      have hb := try_clone_some s.builder b htc
      subst hb
      simp at h
      exact h.symm

theorem handle_error_retry (s : EventSource) (e : Error) (d : Duration)
    (h : s.retry_policy e s.last_retry = some d) :
    s.handle_error e =
      { s with
          next_response := none
          cur_stream := none
          delay := some d
          last_retry := some ((s.last_retry.map Prod.fst).getD 1, d) } := by
  unfold EventSource.handle_error
  simp [EventSource.clear_fetch, h]

theorem handle_error_close (s : EventSource) (e : Error)
    (h : s.retry_policy e s.last_retry = none) :
    s.handle_error e =
      { s with next_response := none, cur_stream := none, is_closed := true } := by
  unfold EventSource.handle_error
  simp [EventSource.clear_fetch, h]

theorem slotCount_handle_error (s : EventSource) (e : Error) :
    slotCount (s.handle_error e) ≤ 1 := by
  cases h : s.retry_policy e s.last_retry with
  | some d => rw [handle_error_retry s e d h]; simp [slotCount]
  | none =>
      rw [handle_error_close s e h]
      cases hds : s.delay.isSome <;> simp [slotCount, hds]

theorem slotCount_poll_fetch_or_stream (parse : MimeParser) (s : EventSource) (env : Env)
    (p : PollItem) (s2 : EventSource) (hd : s.delay = none) (hs : slotCount s ≤ 1)
    (h : poll_fetch_or_stream parse s env = some (p, s2)) : slotCount s2 ≤ 1 := by
  unfold poll_fetch_or_stream at h
  cases hnr : s.next_response with
  | some f =>
    simp only [hnr] at h
    cases hrr : env.responseResult with
    | ready r =>
      simp only [hrr] at h
      cases r with
      | ok res =>
        cases hchk : check_response parse res with
        | error err =>
          simp only [hchk, Option.some.injEq, Prod.mk.injEq] at h
          obtain ⟨-, h2⟩ := h
          subst h2
          simp [slotCount, EventSource.clear_fetch, hd]
        | ok u =>
          simp only [hchk, Option.some.injEq, Prod.mk.injEq] at h
          obtain ⟨-, h2⟩ := h
          subst h2
          simp [slotCount, EventSource.clear_fetch, hd]
      | error e =>
        simp only [Option.some.injEq, Prod.mk.injEq] at h
        obtain ⟨-, h2⟩ := h
        subst h2
        exact slotCount_handle_error s (Error.Transport e)
    | pending =>
      simp only [hrr, Option.some.injEq, Prod.mk.injEq] at h
      obtain ⟨-, h2⟩ := h
      subst h2
      exact hs
  | none =>
    simp only [hnr] at h
    cases hcs : s.cur_stream with
    | none => simp only [hcs] at h; exact absurd h (by simp)
    | some st =>
      simp only [hcs] at h
      cases hsr : env.streamResult with
      | ready r =>
        simp only [hsr] at h
        match r with
        | some (Except.error e) =>
          simp only [Option.some.injEq, Prod.mk.injEq] at h
          obtain ⟨-, h2⟩ := h
          subst h2
          exact slotCount_handle_error s (Error.Decode e)
        | some (Except.ok ev) =>
          simp only [Option.some.injEq, Prod.mk.injEq] at h
          obtain ⟨-, h2⟩ := h
          subst h2
          exact hs
        | none =>
          simp only [Option.some.injEq, Prod.mk.injEq] at h
          obtain ⟨-, h2⟩ := h
          subst h2
          exact slotCount_handle_error s Error.StreamEnded
      | pending =>
        simp only [hsr, Option.some.injEq, Prod.mk.injEq] at h
        obtain ⟨-, h2⟩ := h
        subst h2
        exact hs

theorem slotCount_poll (parse : MimeParser) (s : EventSource) (env : Env)
    (p : PollItem) (s2 : EventSource) (hs : slotCount s ≤ 1)
    (h : poll_next parse s env = some (p, s2)) : slotCount s2 ≤ 1 := by
  unfold poll_next at h
  cases hc : s.is_closed with
  | true =>
    rw [if_pos hc] at h
    simp only [Option.some.injEq, Prod.mk.injEq] at h
    obtain ⟨-, h2⟩ := h
    subst h2
    exact hs
  | false =>
    rw [if_neg (by simp [hc])] at h
    cases hd : s.delay with
    | none =>
      simp only [hd] at h
      exact slotCount_poll_fetch_or_stream parse s env p s2 hd hs h
    | some t =>
      simp only [hd] at h
      cases he : env.delayElapsed with
      | false =>
        rw [if_neg (by simp [he])] at h
        simp only [Option.some.injEq, Prod.mk.injEq] at h
        obtain ⟨-, h2⟩ := h
        subst h2
        exact hs
      | true =>
        rw [if_pos he] at h
        cases hrf : EventSource.retry_fetch { s with delay := none } with
        | none => simp only [hrf] at h; exact absurd h (by simp)
        | some s1 =>
          simp only [hrf] at h
          have hs1 := retry_fetch_some _ _ hrf
          subst hs1
          refine slotCount_poll_fetch_or_stream parse _ env p s2 rfl ?_ h
          simp [slotCount]

/-- C3: at most one of the three waitable slots — retry timer, pending response,
open event stream — is populated at every observable point: after construction,
after `close`, and after every poll; no transition leaves two slots populated. -/
theorem slot_invariant :
    (∀ policy b s, EventSource.new policy b = Except.ok s → slotCount s ≤ 1) ∧
    (∀ s : EventSource, slotCount s ≤ 1 → slotCount s.close ≤ 1) ∧
    (∀ (parse : MimeParser) (s : EventSource) (env : Env) (p : PollItem)
        (s2 : EventSource), slotCount s ≤ 1 →
      poll_next parse s env = some (p, s2) → slotCount s2 ≤ 1) := by
  refine ⟨?_, fun s hs => hs, fun parse s env p s2 hs h => slotCount_poll parse s env p s2 hs h⟩
  intro policy b s h
  unfold EventSource.new at h
  cases htc : b.try_clone <;> rw [htc] at h
  · exact absurd h (by simp)
  · rw [Except.ok.injEq] at h
    subst h
    simp [slotCount]

/-- C3 witness. -/
theorem slot_invariant_witness : slotCount testSource ≤ 1 :=
  slot_invariant.1 alwaysRetry testBuilder testSource rfl

/-- C4: on every non-validation failure the shared handler asks the RetryPolicy:
if it returns a delay d, the bookkeeping becomes the pair of the previously
recorded attempt count (1 when none was recorded) with d and the timer slot is
armed for d; if it returns no delay, the driver is set Closed permanently. When an
armed timer has elapsed, the same poll clears the timer slot, arms a fresh fetch
built from a cloned template, and continues by polling that fetch within the same
call; before it elapses the poll reports not-ready. -/
theorem retry_handling :
    (∀ (s : EventSource) (e : Error) (d : Duration),
      s.retry_policy e s.last_retry = some d →
      (s.handle_error e).last_retry = some ((s.last_retry.map Prod.fst).getD 1, d) ∧
      (s.handle_error e).delay = some d ∧
      (s.handle_error e).is_closed = s.is_closed ∧
      (s.handle_error e).next_response = none ∧ (s.handle_error e).cur_stream = none) ∧
    (∀ (s : EventSource) (e : Error),
      s.retry_policy e s.last_retry = none →
      (s.handle_error e).is_closed = true) ∧
    (∀ (parse : MimeParser) (s : EventSource) (env : Env) (t : Duration),
      s.is_closed = false → s.delay = some t → env.delayElapsed = true →
      s.builder.cloneable = true →
      ∃ s1, EventSource.retry_fetch { s with delay := none } = some s1 ∧
        s1.delay = none ∧ s1.cur_stream = none ∧
        s1.next_response = some s.builder.send ∧
        poll_next parse s env = poll_fetch_or_stream parse s1 env) ∧
    (∀ (parse : MimeParser) (s : EventSource) (env : Env) (t : Duration),
      s.is_closed = false → s.delay = some t → env.delayElapsed = false →
      poll_next parse s env = some (Poll.pending, s)) := by
  refine ⟨?_, ?_, ?_, ?_⟩
  · intro s e d h
    rw [handle_error_retry s e d h]
    exact ⟨rfl, rfl, rfl, rfl, rfl⟩
  · intro s e h
    rw [handle_error_close s e h]
  · intro parse s env t hc hd he hclone
    have hrf : EventSource.retry_fetch { s with delay := none }
        = some { s with
            delay := none
            cur_stream := none
            next_response := some s.builder.send } := by
      unfold EventSource.retry_fetch RequestBuilder.try_clone
      simp [hclone]
    refine ⟨_, hrf, rfl, rfl, rfl, ?_⟩
    unfold poll_next
    rw [if_neg (by simp [hc])]
    simp only [hd]
    rw [if_pos he]
    simp only [hrf]
  · intro parse s env t hc hd he
    unfold poll_next
    rw [if_neg (by simp [hc])]
    simp only [hd]
    rw [if_neg (by simp [he])]

/-- A source waiting on an armed 5-unit retry timer. -/
def delayedSource : EventSource :=
  { testSource with delay := some 5, next_response := none }

/-- Environment in which the armed timer has elapsed and nothing else is ready. -/
def envElapsed : Env :=
  { delayElapsed := true, responseResult := Poll.pending, streamResult := Poll.pending }

/-- C4 witness. -/
theorem retry_handling_witness :
    ((testSource.handle_error Error.StreamEnded).last_retry = some (1, 5) ∧
      (testSource.handle_error Error.StreamEnded).delay = some 5) ∧
    poll_next testParse delayedSource envElapsed
      = poll_fetch_or_stream testParse
          { delayedSource with
              delay := none
              cur_stream := none
              next_response := some delayedSource.builder.send } envElapsed := by
  refine ⟨⟨(retry_handling.1 testSource Error.StreamEnded 5 rfl).1,
    (retry_handling.1 testSource Error.StreamEnded 5 rfl).2.1⟩, ?_⟩
  obtain ⟨s1, hrf, -, -, -, hpoll⟩ :=
    retry_handling.2.2.1 testParse delayedSource envElapsed 5 rfl rfl rfl rfl
  have hs1 := retry_fetch_some _ _ hrf
  rw [hpoll, hs1]

/-- C2: a fetched response that fails validation makes the observing poll clear
the fetch slot, close the driver permanently, and surface the validation error as
its produced item; the following poll reports end-of-sequence. -/
theorem validation_failure_closes (parse : MimeParser) (s : EventSource) (env env2 : Env)
    (f : ResponseFuture) (res : Response) (err : Error)
    (hc : s.is_closed = false) (hd : s.delay = none) (hf : s.next_response = some f)
    (hr : env.responseResult = Poll.ready (Except.ok res))
    (hchk : check_response parse res = Except.error err) :
    ∃ s2, poll_next parse s env = some (Poll.ready (some (Except.error err)), s2) ∧
      s2.next_response = none ∧ s2.cur_stream = none ∧ s2.is_closed = true ∧
      poll_next parse s2 env2 = some (Poll.ready none, s2) := by
  refine ⟨{ s.clear_fetch with is_closed := true }, ?_, rfl, rfl, rfl, ?_⟩
  · unfold poll_next
    rw [if_neg (by simp [hc])]
    simp only [hd]
    unfold poll_fetch_or_stream
    simp only [hf, hr, hchk]
  · unfold poll_next
    rw [if_pos rfl]

/-- C2 witness. -/
theorem validation_failure_closes_witness :
    ∃ s2, poll_next testParse testSource env201
        = some (Poll.ready (some (Except.error (Error.InvalidStatusCode 201))), s2) ∧
      s2.next_response = none ∧ s2.cur_stream = none ∧ s2.is_closed = true ∧
      poll_next testParse s2 env201 = some (Poll.ready none, s2) :=
  validation_failure_closes testParse testSource env201 env201 testBuilder.send res201
    (Error.InvalidStatusCode 201) rfl rfl rfl rfl rfl

theorem poll_fetch_or_stream_open (parse : MimeParser) (s : EventSource) (env : Env)
    (s2 : EventSource)
    (h : poll_fetch_or_stream parse s env
      = some (Poll.ready (some (Except.ok Event.Open)), s2)) :
    ∃ res2, env.responseResult = Poll.ready (Except.ok res2) ∧
      check_response parse res2 = Except.ok () ∧
      s2.cur_stream = some { bytes := res2.body } ∧ s2.last_retry = none := by
  unfold poll_fetch_or_stream at h
  cases hnr : s.next_response with
  | some f =>
    simp only [hnr] at h
    cases hrr : env.responseResult with
    | ready r =>
      simp only [hrr] at h
      cases r with
      | ok res =>
        cases hchk : check_response parse res with
        | error err =>
          simp only [hchk] at h
          exact absurd h (by simp)
        | ok u =>
          simp only [hchk, Option.some.injEq, Prod.mk.injEq] at h
          obtain ⟨-, h2⟩ := h
          subst h2
          exact ⟨res, rfl, by cases u; exact hchk, rfl, rfl⟩
      | error e => exact absurd h (by simp)
    | pending =>
      simp only [hrr] at h
      exact absurd h (by simp)
  | none =>
    simp only [hnr] at h
    cases hcs : s.cur_stream with
    | none => simp only [hcs] at h; exact absurd h (by simp)
    | some st =>
      simp only [hcs] at h
      cases hsr : env.streamResult with
      | ready r =>
        simp only [hsr] at h
        match r with
        | some (Except.error e) => exact absurd h (by simp)
        | some (Except.ok ev) => exact absurd h (by simp)
        | none => exact absurd h (by simp)
      | pending =>
        simp only [hsr] at h
        exact absurd h (by simp)

theorem poll_next_open (parse : MimeParser) (t : EventSource) (env3 : Env)
    (s3 : EventSource)
    (h : poll_next parse t env3 = some (Poll.ready (some (Except.ok Event.Open)), s3)) :
    ∃ res2, env3.responseResult = Poll.ready (Except.ok res2) ∧
      check_response parse res2 = Except.ok () ∧
      s3.cur_stream = some { bytes := res2.body } ∧ s3.last_retry = none := by
  unfold poll_next at h
  cases hct : t.is_closed with
  | true =>
    rw [if_pos hct] at h
    exact absurd h (by simp)
  | false =>
    rw [if_neg (by simp [hct])] at h
    cases hdt : t.delay with
    | none =>
      simp only [hdt] at h
      exact poll_fetch_or_stream_open parse t env3 s3 h
    | some u =>
      simp only [hdt] at h
      cases het : env3.delayElapsed with
      | false =>
        rw [if_neg (by simp [het])] at h
        exact absurd h (by simp)
      | true =>
        rw [if_pos het] at h
        cases hrf : EventSource.retry_fetch { t with delay := none } with
        | none => simp only [hrf] at h; exact absurd h (by simp)
        | some s1 =>
          simp only [hrf] at h
          exact poll_fetch_or_stream_open parse s1 env3 s3 h

/-- C5: a response that passes validation makes the same poll clear the retry
bookkeeping, install the body as the open event stream, and yield Ok(Open) as its
produced item; the newly installed stream is not polled during that call (the
result is independent of what the stream would yield), and any poll that produces
Ok(Open) did so from a successfully validated fetch and installed that response's
body as the fresh stream with cleared bookkeeping — so Open is emitted exactly
once per successful (re)connection, before any Message from that connection. -/
theorem validation_success_opens (parse : MimeParser) (s : EventSource) (env : Env)
    (f : ResponseFuture) (res : Response)
    (hc : s.is_closed = false) (hd : s.delay = none) (hf : s.next_response = some f)
    (hr : env.responseResult = Poll.ready (Except.ok res))
    (hchk : check_response parse res = Except.ok ()) :
    (∃ s2, poll_next parse s env = some (Poll.ready (some (Except.ok Event.Open)), s2) ∧
      s2.last_retry = none ∧ s2.cur_stream = some { bytes := res.body } ∧
      s2.next_response = none ∧ s2.delay = none ∧ s2.is_closed = false) ∧
    (∀ env2 : Env, env2.responseResult = env.responseResult →
      poll_next parse s env2 = poll_next parse s env) ∧
    (∀ (t : EventSource) (env3 : Env) (s3 : EventSource),
      poll_next parse t env3 = some (Poll.ready (some (Except.ok Event.Open)), s3) →
      ∃ res2, env3.responseResult = Poll.ready (Except.ok res2) ∧
        check_response parse res2 = Except.ok () ∧
        s3.cur_stream = some { bytes := res2.body } ∧ s3.last_retry = none) := by
  refine ⟨?_, ?_, fun t env3 s3 h => poll_next_open parse t env3 s3 h⟩
  · refine ⟨{ s.clear_fetch with
        last_retry := none
        cur_stream := some { bytes := res.body } }, ?_, rfl, rfl, rfl, hd, hc⟩
    unfold poll_next
    rw [if_neg (by simp [hc])]
    simp only [hd]
    unfold poll_fetch_or_stream
    simp only [hf, hr, hchk]
  · intro env2 henv
    unfold poll_next
    rw [if_neg (by simp [hc])]
    simp only [hd]
    unfold poll_fetch_or_stream
    simp only [hf, henv]
    rw [if_neg (by simp [hc])]

/-- C5 witness. -/
theorem validation_success_opens_witness :
    ∃ s2, poll_next testParse testSource envOk
        = some (Poll.ready (some (Except.ok Event.Open)), s2) ∧
      s2.last_retry = none ∧ s2.cur_stream = some { bytes := resOk.body } ∧
      s2.next_response = none ∧ s2.delay = none ∧ s2.is_closed = false :=
  (validation_success_opens testParse testSource envOk testBuilder.send resOk
    rfl rfl rfl rfl rfl).1

/-- C8: when the open event stream is exhausted gracefully, the poll surfaces
Err(StreamEnded) as its produced item and invokes the shared failure handling, so
the driver then retries (timer armed, still not closed) or closes, according to
the RetryPolicy. -/
theorem stream_ended_handling (parse : MimeParser) (s : EventSource) (env : Env)
    (st : EventStream)
    (hc : s.is_closed = false) (hd : s.delay = none) (hnr : s.next_response = none)
    (hst : s.cur_stream = some st) (hend : env.streamResult = Poll.ready none) :
    poll_next parse s env
      = some (Poll.ready (some (Except.error Error.StreamEnded)),
          s.handle_error Error.StreamEnded) ∧
    ((∃ d, s.retry_policy Error.StreamEnded s.last_retry = some d ∧
        (s.handle_error Error.StreamEnded).delay = some d ∧
        (s.handle_error Error.StreamEnded).is_closed = false) ∨
      (s.retry_policy Error.StreamEnded s.last_retry = none ∧
        (s.handle_error Error.StreamEnded).is_closed = true)) := by
  constructor
  · unfold poll_next
    rw [if_neg (by simp [hc])]
    simp only [hd]
    unfold poll_fetch_or_stream
    simp only [hnr, hst, hend]
  · cases hpol : s.retry_policy Error.StreamEnded s.last_retry with
    | some d =>
      left
      refine ⟨d, rfl, ?_, ?_⟩
      · rw [handle_error_retry s _ d hpol]
      · rw [handle_error_retry s _ d hpol]
        exact hc
    | none =>
      right
      exact ⟨rfl, by rw [handle_error_close s _ hpol]⟩

/-- C8 witness. -/
theorem stream_ended_handling_witness :
    poll_next testParse streamingSource envEnd
      = some (Poll.ready (some (Except.error Error.StreamEnded)),
          streamingSource.handle_error Error.StreamEnded) :=
  (stream_ended_handling testParse streamingSource envEnd { bytes := "B" }
    rfl rfl rfl rfl rfl).1

/-- C1 counterexample: with a retry policy that grants a delay for every error, a
validator rejection (here a 201 status) still closes the source permanently, arms
no retry timer, and leaves the bookkeeping untouched — the retry policy is never
consulted for validator rejections, so it cannot schedule a retry for them. -/
theorem validator_rejection_not_retried :
    (poll_next testParse testSource env201).map
        (fun r => (r.1, r.2.is_closed, r.2.delay, r.2.last_retry))
      = some (Poll.ready (some (Except.error (Error.InvalidStatusCode 201))),
          true, none, none) := by rfl

/-- C1 amended: every post-construction error is surfaced to the caller as the
poll's produced item; Transport, Decode and StreamEnded failures additionally
drive the retry/close decision through the RetryPolicy via the shared handler
(which retries exactly when the policy grants a delay); validator rejections
(InvalidStatusCode, InvalidContentType) are surfaced but close the source
permanently without consulting the policy (bookkeeping untouched). -/
theorem error_propagation (parse : MimeParser) :
    (∀ (s : EventSource) (env : Env) (f : ResponseFuture) (e : TransportError),
      s.is_closed = false → s.delay = none → s.next_response = some f →
      env.responseResult = Poll.ready (Except.error e) →
      poll_next parse s env
        = some (Poll.ready (some (Except.error (Error.Transport e))),
            s.handle_error (Error.Transport e))) ∧
    (∀ (s : EventSource) (env : Env) (st : EventStream) (e : DecodeError),
      s.is_closed = false → s.delay = none → s.next_response = none →
      s.cur_stream = some st →
      env.streamResult = Poll.ready (some (Except.error e)) →
      poll_next parse s env
        = some (Poll.ready (some (Except.error (Error.Decode e))),
            s.handle_error (Error.Decode e))) ∧
    (∀ (s : EventSource) (env : Env) (st : EventStream),
      s.is_closed = false → s.delay = none → s.next_response = none →
      s.cur_stream = some st →
      env.streamResult = Poll.ready none →
      poll_next parse s env
        = some (Poll.ready (some (Except.error Error.StreamEnded)),
            s.handle_error Error.StreamEnded)) ∧
    (∀ (s : EventSource) (e : Error),
      ((s.handle_error e).is_closed = s.is_closed ∧
        ∃ d, s.retry_policy e s.last_retry = some d ∧
          (s.handle_error e).delay = some d) ∨
      ((s.handle_error e).is_closed = true ∧
        s.retry_policy e s.last_retry = none)) ∧
    (∀ (s : EventSource) (env : Env) (f : ResponseFuture) (res : Response) (err : Error),
      s.is_closed = false → s.delay = none → s.next_response = some f →
      env.responseResult = Poll.ready (Except.ok res) →
      check_response parse res = Except.error err →
      ∃ s2, poll_next parse s env = some (Poll.ready (some (Except.error err)), s2) ∧
        s2.is_closed = true ∧ s2.delay = none ∧ s2.last_retry = s.last_retry) := by
  refine ⟨?_, ?_, ?_, ?_, ?_⟩
  · intro s env f e hc hd hf hr
    unfold poll_next
    rw [if_neg (by simp [hc])]
    simp only [hd]
    unfold poll_fetch_or_stream
    simp only [hf, hr]
  · intro s env st e hc hd hnr hst hsr
    unfold poll_next
    rw [if_neg (by simp [hc])]
    simp only [hd]
    unfold poll_fetch_or_stream
    simp only [hnr, hst, hsr]
  · intro s env st hc hd hnr hst hsr
    unfold poll_next
    rw [if_neg (by simp [hc])]
    simp only [hd]
    unfold poll_fetch_or_stream
    simp only [hnr, hst, hsr]
  · intro s e
    cases hpol : s.retry_policy e s.last_retry with
    | some d =>
      left
      refine ⟨?_, d, rfl, ?_⟩ <;> rw [handle_error_retry s e d hpol]
    | none =>
      right
      exact ⟨by rw [handle_error_close s e hpol], rfl⟩
  · intro s env f res err hc hd hf hr hchk
    refine ⟨{ s.clear_fetch with is_closed := true }, ?_, rfl, hd, rfl⟩
    unfold poll_next
    rw [if_neg (by simp [hc])]
    simp only [hd]
    unfold poll_fetch_or_stream
    simp only [hf, hr, hchk]

/-- C1 witness. -/
theorem error_propagation_witness :
    poll_next testParse testSource envErr
      = some (Poll.ready (some (Except.error (Error.Transport "boom"))),
          testSource.handle_error (Error.Transport "boom")) :=
  (error_propagation testParse).1 testSource envErr testBuilder.send "boom"
    rfl rfl rfl rfl

/-- C9 witness. -/
theorem close_spec_witness :
    poll_next testParse testSource.close envPending
      = some (Poll.ready none, testSource.close) :=
  close_spec.2.2 testParse envPending testSource

/-- C10 witness. -/
theorem close_frame_witness :
    (poll_next testParse testSource.close envPending).map Prod.snd
      = some testSource.close :=
  close_frame.2 testParse envPending testSource
